import Mathlib

/-!
# Verification of the Valorant skin-price acquisition pipeline

Shallow embedding of the price-extraction, source-fallback, caching,
currency-conversion and quality-verification code of the repository
(`utils/playwright_scraper.py`, `utils/data_sources.py`,
`utils/skin_verifier.py`, `utils/getSkins.py`, `utils/currencyMap.py`),
together with theorems settling the specification claims.

HTML rows are modelled as lists of cells; a cell records whether it carries
the `data-sort-value` attribute and its visible text.  Machine arithmetic is
exact (`Int`/`Nat`/`ℚ`); fallible paths return `Option`/`Except`.
-/

/-- A table cell: `marked` models the presence of the `data-sort-value`
attribute, `text` the cell text (`td.text` / `get_text`). -/
structure Cell where
  marked : Bool
  text : String
deriving DecidableEq

/-- A table row, as `row.find_all("td")` sees it: its list of cells. -/
abbrev Row := List Cell

/-- A table, as `table.find_all("tr")` sees it: all rows, header included. -/
abbrev Table := List Row

/-- Whitespace stripped by Python `str.strip()` (ASCII whitespace plus the
non-breaking space that appears in the wiki markup). -/
def isPySpace (c : Char) : Bool :=
  c.isWhitespace || c = Char.ofNat 160

/-- Python `str.strip()` on the character list of a string. -/
def pyStrip (cs : List Char) : List Char :=
  ((cs.dropWhile isPySpace).reverse.dropWhile isPySpace).reverse

/-- Characters removed by `re.sub(r"[\xa0\n,]", "", ...)` before the primary
integer parse. -/
def isStrippedChar (c : Char) : Bool :=
  c = Char.ofNat 160 || c = '\n' || c = ','

/-- `td_element.text.strip()` followed by `re.sub(r"[\xa0\n,]", "", ...)`. -/
def pyCleanNumber (s : String) : String :=
  String.mk ((pyStrip s.data).filter (fun c => !isStrippedChar c))

/-- Value of a list of decimal digit characters. -/
def digitsToNat (cs : List Char) : Nat :=
  cs.foldl (fun n c => n * 10 + (c.toNat - 48)) 0

/-- Python `int(s)` on an already-stripped string: optional sign followed by
at least one decimal digit; `none` models the `ValueError`. -/
def pyInt (s : String) : Option Int :=
  match s.data with
  | [] => none
  | '-' :: rest =>
      if rest ≠ [] ∧ rest.all Char.isDigit then some (-(digitsToNat rest : Int)) else none
  | '+' :: rest =>
      if rest ≠ [] ∧ rest.all Char.isDigit then some ((digitsToNat rest : Int)) else none
  | cs =>
      if cs.all Char.isDigit then some ((digitsToNat cs : Int)) else none

/-- Greedy repetitions of `(?:,\d{3})` at the head of the character list
(the starred tail of the price regex). -/
def commaGroups : List Char → List Char
  | ',' :: a :: b :: c :: rest =>
      if a.isDigit && b.isDigit && c.isDigit then
        ',' :: a :: b :: c :: commaGroups rest
      else []
  | _ => []

/-- Match of the pattern `\d{3,4}(?:,\d{3})*` anchored at the head of the
character list (greedy, as Python's `re` resolves it: four digits are
preferred over three, and the star consumes as many `,ddd` groups as
possible). -/
def priceMatchAt : List Char → Option (List Char)
  | a :: b :: c :: rest =>
      if a.isDigit && b.isDigit && c.isDigit then
        match rest with
        | d :: rest2 =>
            if d.isDigit then some (a :: b :: c :: d :: commaGroups rest2)
            else some (a :: b :: c :: commaGroups rest)
        | [] => some [a, b, c]
      else none
  | _ => none

/-- `re.search(r'(\d{3,4}(?:,\d{3})*)', ...)`: the leftmost position at
which the pattern matches, returning the matched group. -/
def reSearchPrice : List Char → Option (List Char)
  | [] => none
  | c :: cs =>
      match priceMatchAt (c :: cs) with
      | some m => some m
      | none => reSearchPrice cs

/-- `price_match.group(1).replace(',', '')`. -/
def removeCommas (cs : List Char) : List Char :=
  cs.filter (fun c => c ≠ ',')

namespace PlaywrightScraper

/-- The fallback loop of `_extract_price_from_row`
(`src/utils/playwright_scraper.py:196-210`): scan every cell's stripped text
for a 3-4-digit (optionally comma-grouped) number; the first cell whose
parsed match lies in [800, 6000] wins; any other outcome moves on to the
next cell. -/
def fallbackScan : List Cell → Option Int
  | [] => none
  | cell :: cells =>
      match reSearchPrice (pyStrip cell.text.data) with
      | some m =>
          match pyInt (String.mk (removeCommas m)) with
          | some price =>
              if 800 ≤ price ∧ price ≤ 6000 then some price else fallbackScan cells
          | none => fallbackScan cells
      | none => fallbackScan cells

/-- `PlaywrightScraper._extract_price_from_row`
(`src/utils/playwright_scraper.py:186-216`).  Primary path: the first cell
carrying `data-sort-value` has its cleaned text parsed as an integer; a
parse failure there raises `ValueError`, which the enclosing `except`
turns into `None` (it does NOT fall through to the scan).  Fallback path:
`fallbackScan` over all cells. -/
def _extract_price_from_row (row : Row) : Option Int :=
  match row.find? (fun c => c.marked) with
  | some td_element => pyInt (pyCleanNumber td_element.text)
  | none => fallbackScan row

/-- `PlaywrightScraper._extract_prices_from_soup`
(`src/utils/playwright_scraper.py:147-184`): require at least two tables
matching `table.wikitable.sortable`; process tables at index 1 and (when
present) 2; in each, skip the header row and collect the per-row prices. -/
def _extract_prices_from_soup (tables : List Table) : Except String (List Int) :=
  if tables.length < 2 then .error "Could not find weapon skins table"
  else
    let target_tables := (tables.drop 1).take 2
    if target_tables.isEmpty then .error "Could not find target tables (2 and 3)"
    else .ok (target_tables.flatMap fun table =>
      (table.drop 1).filterMap _extract_price_from_row)

end PlaywrightScraper

namespace PlaywrightScraper

/-- One attempt of `scrape_with_retry`: clearing cookies, navigating,
waiting for the selector and extracting are summarised by the attempt's
outcome — `.error e` when any of those steps raised `e`, `.ok prices` when
extraction returned `prices`. -/
abbrev AttemptOutcome := Except String (List Int)

/-- The loop body of `PlaywrightScraper.scrape_with_retry`
(`src/utils/playwright_scraper.py:113-145`), with `attempt` the current
0-based attempt index and the list holding the outcomes of the remaining
attempts (so the full run passes one outcome per attempt, `max_retries`
in all).  Returns the trace of backoff sleeps (`asyncio.sleep(2 ** attempt)`
durations, in order) together with the final result.  An attempt that
raises on any but the last attempt sleeps `2 ^ attempt` and continues; a
raise on the last attempt is re-raised with no sleep; an attempt returning
an empty list continues with no sleep; exhausting the loop raises the
generic exhaustion error. -/
def scrape_with_retry_go (attempt : Nat) :
    List AttemptOutcome → List Nat × AttemptOutcome
  | [] => ([], .error "All scraping attempts failed")
  | outcome :: rest =>
      match outcome with
      | .ok prices =>
          if prices.length > 0 then ([], .ok prices)
          else scrape_with_retry_go (attempt + 1) rest
      | .error e =>
          if rest.isEmpty then ([], .error e)
          else
            let r := scrape_with_retry_go (attempt + 1) rest
            (2 ^ attempt :: r.1, r.2)

/-- `PlaywrightScraper.scrape_with_retry(url, max_retries)`, with the
`max_retries` attempts' outcomes given as a list (`outcomes.length =
max_retries`). -/
def scrape_with_retry (outcomes : List AttemptOutcome) :
    List Nat × AttemptOutcome :=
  scrape_with_retry_go 0 outcomes

end PlaywrightScraper

namespace DataSources

/-- The two `DataSource` subclasses of `src/utils/data_sources.py`:
`FandomWikiSource` (Playwright, browser-based) and
`FandomWikiRequestsSource` (plain HTTP). -/
inductive SourceKind where
  | fandomPlaywright
  | fandomRequests
deriving DecidableEq

/-- `DataSource.is_available` (`src/utils/data_sources.py:46-48`): the base
class returns `True` and neither subclass overrides it. -/
def is_available (_ : SourceKind) : Bool := true

/-- `DataSourceManager.__init__` (`src/utils/data_sources.py:240-250`):
the configured source list holds exactly one entry — `FandomWikiSource`
when the Playwright import succeeded, `FandomWikiRequestsSource`
otherwise. -/
def DataSourceManager_sources (playwright_available : Bool) : List SourceKind :=
  if playwright_available then [.fandomPlaywright] else [.fandomRequests]

/-- `DataSourceManager.get_prices` (`src/utils/data_sources.py:252-270`):
iterate the sources; skip unavailable ones; on a fetch exception log and
continue; on a non-empty result return it immediately; raise the
exhaustion error when the list is exhausted.  `fetch` gives each source's
`fetch_prices()` behaviour. -/
def get_prices (fetch : SourceKind → Except String (List Int)) :
    List SourceKind → Except String (List Int)
  | [] => .error "All data sources failed"
  | source :: rest =>
      if !is_available source then get_prices fetch rest
      else
        match fetch source with
        | .ok prices =>
            if prices.length > 0 then .ok prices else get_prices fetch rest
        | .error _ => get_prices fetch rest

/-- `DataSourceManager.get_total_price` (`src/utils/data_sources.py:272-275`):
`sum(self.get_prices())`, with a `get_prices` failure propagating. -/
def get_total_price (fetch : SourceKind → Except String (List Int))
    (sources : List SourceKind) : Except String Int :=
  match get_prices fetch sources with
  | .ok prices => .ok prices.sum
  | .error e => .error e

end DataSources

/-- Does `p` match at the head of `s`? (helper for Python's `in`). -/
def headMatch : List Char → List Char → Bool
  | [], _ => true
  | _ :: _, [] => false
  | a :: ps, b :: ss => a == b && headMatch ps ss

/-- Does `p` occur somewhere in `s`? -/
def occursList (p : List Char) : List Char → Bool
  | [] => headMatch p []
  | s@(_ :: ss) => headMatch p s || occursList p ss

/-- Python `needle in haystack` on strings. -/
def pyIn (needle haystack : String) : Bool :=
  occursList needle.data haystack.data

/-- Python `str.lower()` (ASCII case folding, as `Char.toLower` performs). -/
def pyLower (s : String) : String :=
  String.mk (s.data.map Char.toLower)

namespace SkinVerifier

/-- The `SkinInfo` dataclass (`src/utils/skin_verifier.py:14-22`). -/
structure SkinInfo where
  name : String
  weapon : String
  price : Int
  edition : String
  source : String
  row_index : Nat
deriving DecidableEq

/-- `SkinVerifier._extract_price_from_row`
(`src/utils/skin_verifier.py:151-181`), a verbatim copy of
`PlaywrightScraper._extract_price_from_row`. -/
def _extract_price_from_row : Row → Option Int :=
  PlaywrightScraper._extract_price_from_row

/-- `row.get_text()`: the concatenated text of the row's cells. -/
def rowText (row : Row) : String :=
  String.join (row.map (fun c => c.text))

/-- `SkinVerifier._extract_edition` (`src/utils/skin_verifier.py:228-243`). -/
def _extract_edition (row : Row) : String :=
  let row_text := pyLower (rowText row)
  if pyIn "ultra" row_text then "Ultra"
  else if pyIn "exclusive" row_text then "Exclusive"
  else if pyIn "premium" row_text then "Premium"
  else if pyIn "deluxe" row_text then "Deluxe"
  else if pyIn "select" row_text then "Select"
  else "Unknown"

/-- `SkinVerifier._extract_source` (`src/utils/skin_verifier.py:245-256`). -/
def _extract_source (row : Row) : String :=
  let row_text := pyLower (rowText row)
  if pyIn "battle pass" row_text || pyIn "battlepass" row_text then "Battle Pass"
  else if pyIn "agent gear" row_text then "Agent Gear"
  else if pyIn "store" row_text || pyIn "night market" row_text then "Store"
  else "Unknown"

/-- `SkinVerifier._extract_skin_info` (`src/utils/skin_verifier.py:183-226`):
no record without at least one cell; no record when the row's price is
absent or non-positive; the name falls back to `Skin_<row_index>` when the
first cell is blank or a known non-data marker; the weapon comes from the
second cell when present and non-blank, else `"Unknown"`. -/
def _extract_skin_info (row : Row) (row_index : Nat) (_table_index : Nat) :
    Option SkinInfo :=
  match row with
  | [] => none
  | name_cell :: restCells =>
      match _extract_price_from_row row with
      | none => none
      | some price =>
          if price ≤ 0 then none
          else
            let raw_name := String.mk (pyStrip name_cell.text.data)
            let skin_name :=
              if raw_name = "" || raw_name = "â€”" || raw_name = "-" then
                "Skin_" ++ toString row_index
              else raw_name
            let weapon :=
              match restCells with
              | [] => "Unknown"
              | weapon_cell :: _ =>
                  let weapon_text := String.mk (pyStrip weapon_cell.text.data)
                  if weapon_text ≠ "" && weapon_text ≠ "â€”" && weapon_text ≠ "-" then
                    weapon_text
                  else "Unknown"
            some { name := skin_name, weapon := weapon, price := price,
                   edition := _extract_edition row, source := _extract_source row,
                   row_index := row_index }

/-- The row loop of `SkinVerifier._process_skins_table`
(`src/utils/skin_verifier.py:121-146`), restricted to the `skin_details`
it accumulates: rows whose price extraction fails are skipped, and
otherwise the row's `SkinInfo` (when any) is collected. -/
def processRows (table_index : Nat) : Nat → List Row → List SkinInfo
  | _, [] => []
  | row_index, row :: rest =>
      match _extract_price_from_row row with
      | none => processRows table_index (row_index + 1) rest
      | some _ =>
          match _extract_skin_info row row_index table_index with
          | none => processRows table_index (row_index + 1) rest
          | some info => info :: processRows table_index (row_index + 1) rest

/-- `SkinVerifier._process_skins_table` (`src/utils/skin_verifier.py:107-149`),
restricted to the `skin_details` list it returns (the header row is
skipped; `row_index` enumerates the remaining rows from 0). -/
def _process_skins_table_details (table : Table) (table_index : Nat) :
    List SkinInfo :=
  processRows table_index 0 (table.drop 1)

/-- The missing-data scan of `SkinVerifier._analyze_data_quality`
(`src/utils/skin_verifier.py:267-274`): one entry per failed check,
in row order. -/
def missingDataEntries (skin_details : List SkinInfo) : List String :=
  skin_details.flatMap fun skin =>
    (if skin.name = "" || skin.name = "Unknown" then
      ["Row " ++ toString skin.row_index ++ ": Missing skin name"] else []) ++
    (if skin.weapon = "" || skin.weapon = "Unknown" then
      ["Row " ++ toString skin.row_index ++ ": Missing weapon type"] else []) ++
    (if skin.price ≤ 0 then
      ["Row " ++ toString skin.row_index ++ ": Invalid price (" ++ toString skin.price ++ ")"]
     else [])

/-- The same scan with the invalid-price emission removed; used to state
that the invalid-price flag is unreachable for pipeline-produced records. -/
def missingDataEntriesNoPriceFlag (skin_details : List SkinInfo) : List String :=
  skin_details.flatMap fun skin =>
    (if skin.name = "" || skin.name = "Unknown" then
      ["Row " ++ toString skin.row_index ++ ": Missing skin name"] else []) ++
    (if skin.weapon = "" || skin.weapon = "Unknown" then
      ["Row " ++ toString skin.row_index ++ ": Missing weapon type"] else [])

/-- The record-validity test used for the data-quality score
(`src/utils/skin_verifier.py:295-296`): `skin.name and skin.weapon and
skin.price > 0`, i.e. a non-empty name, a non-empty weapon string and a
positive price (note: NOT `weapon != "Unknown"`). -/
def validSkin (skin : SkinInfo) : Bool :=
  skin.name ≠ "" && skin.weapon ≠ "" && decide (skin.price > 0)

/-- `price_ranges` of `SkinVerifier._analyze_data_quality`
(`src/utils/skin_verifier.py:282-290`). -/
structure PriceRanges where
  min : Int
  max : Int
  average : ℚ
  total : Int
deriving DecidableEq

/-- The analysis record built by `SkinVerifier._analyze_data_quality`
(`src/utils/skin_verifier.py:258-299`).  Python's `set` iteration order for
`duplicate_skins` is modelled as first-occurrence order. -/
structure QualityAnalysis where
  missing_data : List String
  duplicate_skins : List String
  price_ranges : Option PriceRanges
  data_quality_score : ℚ
deriving DecidableEq

/-- Minimum of a non-empty price list (`min(prices)`), 0 as the vacuous
default (never used: the caller guards on non-emptiness). -/
def listMin : List Int → Int
  | [] => 0
  | p :: ps => ps.foldl min p

/-- Maximum of a non-empty price list (`max(prices)`). -/
def listMax : List Int → Int
  | [] => 0
  | p :: ps => ps.foldl max p

/-- `SkinVerifier._analyze_data_quality` (`src/utils/skin_verifier.py:258-299`). -/
def _analyze_data_quality (skin_details : List SkinInfo) : QualityAnalysis :=
  let names := skin_details.map (fun skin => skin.name)
  let duplicates := (names.filter (fun name => names.count name > 1)).dedup
  let prices := skin_details.map (fun skin => skin.price)
  { missing_data := missingDataEntries skin_details
  , duplicate_skins := duplicates
  , price_ranges :=
      if prices.length > 0 then
        some { min := listMin prices, max := listMax prices,
               average := (prices.sum : ℚ) / prices.length, total := prices.sum }
      else none
  , data_quality_score :=
      if skin_details.length > 0 then
        ((skin_details.countP (fun skin => validSkin skin)) : ℚ)
          / skin_details.length * 100
      else 0 }

/-- The expected-total constant of `SkinVerifier.generate_report`
(`src/utils/skin_verifier.py:360`). -/
def expected_total : Nat := 496

/-- The coverage percentage computed by `SkinVerifier.generate_report`
(`src/utils/skin_verifier.py:363-367`). -/
def coverage (actual_total : Nat) : ℚ :=
  if actual_total > 0 then (actual_total : ℚ) / expected_total * 100 else 0

/-- The coverage wording chosen by `SkinVerifier.generate_report`
(`src/utils/skin_verifier.py:375-382`). -/
def coverageLabel (c : ℚ) : String :=
  if c ≥ 95 then "excellent"
  else if c ≥ 80 then "good"
  else if c ≥ 60 then "acceptable"
  else "poor"

end SkinVerifier

namespace CurrencyMap

/-- `VP_TO_USD_RATE = 1 / 110` (`src/utils/currencyMap.py:16`), modelled as
the exact rational the Python float approximates (the double's relative
error, about 1e-16, is far below the half-cent threshold of the `.2f`
formatting used downstream, so the formatted outputs agree). -/
def VP_TO_USD_RATE : ℚ := 1 / 110

/-- `CURRENCY_MAP` (`src/utils/currencyMap.py:19-33`): key ↦ (currency
symbol of the `"<sym>{:,.2f}"` format template, base price). -/
def CURRENCY_MAP : List (String × String × ℚ) :=
  [ ("United States Dollar ($)", "$", 99.99)
  , ("Australian Dollar (A$)", "A$", 129.99)
  , ("Brazilian Real (R$)", "R$", 349.9)
  , ("Canadian Dollar (CA$)", "CA$", 139.99)
  , ("Euro (€)", "€", 100)
  , ("Indian Rupee (₹)", "₹", 7900)
  , ("Malaysian Ringgit (MYR)", "MYR", 199.90)
  , ("Mexican Peso (MX$)", "MX$", 1999)
  , ("New Zealand Dollar (NZ$)", "NZ$", 144.99)
  , ("Russian Ruble (₽)", "₽", 5990)
  , ("Singapore Dollar (SGD)", "SGD", 128.98)
  , ("Turkish Lira (₺)", "₺", 700)
  , ("Pound Sterling (£)", "£", 90) ]

/-- `CurrencyConverter._get_currency_code` (`src/utils/currencyMap.py:211-228`):
the key ↦ ISO-code table, defaulting to `"USD"`. -/
def currency_codes : List (String × String) :=
  [ ("United States Dollar ($)", "USD")
  , ("Australian Dollar (A$)", "AUD")
  , ("Brazilian Real (R$)", "BRL")
  , ("Canadian Dollar (CA$)", "CAD")
  , ("Euro (€)", "EUR")
  , ("Indian Rupee (₹)", "INR")
  , ("Malaysian Ringgit (MYR)", "MYR")
  , ("Mexican Peso (MX$)", "MXN")
  , ("New Zealand Dollar (NZ$)", "NZD")
  , ("Russian Ruble (₽)", "RUB")
  , ("Singapore Dollar (SGD)", "SGD")
  , ("Turkish Lira (₺)", "TRY")
  , ("Pound Sterling (£)", "GBP") ]

/-- `CurrencyConverter._get_currency_code`. -/
def _get_currency_code (currency_key : String) : String :=
  (currency_codes.lookup currency_key).getD "USD"

/-- `CurrencyConverter._get_fallback_rates` (`src/utils/currencyMap.py:156-174`):
the static approximate rate table. -/
def _get_fallback_rates : List (String × ℚ) :=
  [ ("USD", 1.0), ("AUD", 1.5), ("BRL", 5.0), ("CAD", 1.35), ("EUR", 0.85)
  , ("INR", 75.0), ("MYR", 4.2), ("MXN", 20.0), ("NZD", 1.45), ("RUB", 75.0)
  , ("SGD", 1.35), ("TRY", 7.5), ("GBP", 0.75) ]

/-- Digit grouping of a reversed digit string: a `','` after every third
digit, working from the (reversed) front. -/
def groupRev : List Char → List Char
  | a :: b :: c :: d :: rest => a :: b :: c :: ',' :: groupRev (d :: rest)
  | l => l

/-- Two-digit rendering of the cents part. -/
def twoDigits (m : Nat) : String :=
  (if m < 10 then "0" else "") ++ toString m

/-- Rendering of a cent count as a fixed-two-decimals, comma-grouped
string. -/
def centsFormat (cents : ℤ) : String :=
  (if cents < 0 then "-" else "")
    ++ String.mk (groupRev (toString (cents.natAbs / 100)).data.reverse).reverse
    ++ "." ++ twoDigits (cents.natAbs % 100)

/-- Python `"{:,.2f}".format(q)`: round to cents, group the integer part by
thousands, always show two decimals.  (Ties round half-up here where IEEE
formatting rounds half-even; no claim exercises a tie.) -/
def commaFormat2 (q : ℚ) : String :=
  centsFormat (round (q * 100))

/-- Drop every trailing occurrence of `c` (Python `str.rstrip(c)`). -/
def rstripChar (c : Char) (s : String) : String :=
  String.mk (s.data.reverse.dropWhile (fun x => x == c)).reverse

/-- `CurrencyConverter.convert_vp_to_currency`
(`src/utils/currencyMap.py:176-209`).  `get_exchange_rates` summarises what
`self.get_exchange_rates()` would do: `.ok rates` on success, `.error e`
when all rate sources raised `e`.  Unknown keys, a fetch failure and a
missing rate all land in the final `except`, which returns the
`"Error: ..."` string instead of raising. -/
def convert_vp_to_currency (get_exchange_rates : Except String (List (String × ℚ)))
    (vp_amount : Int) (currency_key : String) : String :=
  match CURRENCY_MAP.lookup currency_key with
  | none => "Error: " ++ ("Invalid currency key: " ++ currency_key)
  | some (format_symbol, _base_price) =>
      let usd_amount : ℚ := vp_amount * VP_TO_USD_RATE
      let currency_code := _get_currency_code currency_key
      let target_result : Except String ℚ :=
        if currency_code = "USD" then .ok usd_amount
        else
          match get_exchange_rates with
          | .error e => .error e
          | .ok rates =>
              match rates.lookup currency_code with
              | none => .error ("Exchange rate not available for " ++ currency_code)
              | some rate => .ok (usd_amount * rate)
      match target_result with
      | .error e => "Error: " ++ e
      | .ok target_amount =>
          rstripChar '.' (rstripChar '0' (format_symbol ++ commaFormat2 target_amount))

end CurrencyMap

namespace GetSkins

/-- `CACHE_DURATION = timedelta(hours=6)` (`src/utils/getSkins.py:22`),
in seconds. -/
def CACHE_DURATION : ℤ := 6 * 60 * 60

/-- The contents of `cache/skin_prices.json`
(`src/utils/getSkins.py:80-83`): the cached total and its write
timestamp (seconds). -/
structure CacheEntry where
  price : Int
  timestamp : ℤ
deriving DecidableEq

/-- The cache file's state: `none` models a missing (or unreadable)
file. -/
abbrev CacheState := Option CacheEntry

/-- `SkinPriceFetcher._get_cached_prices` (`src/utils/getSkins.py:56-75`)
at clock reading `now`: a missing file is a miss; a present entry is
returned only while `now - timestamp < CACHE_DURATION`. -/
def _get_cached_prices (now : ℤ) : CacheState → Option Int
  | none => none
  | some entry =>
      if now - entry.timestamp < CACHE_DURATION then some entry.price else none

/-- `SkinPriceFetcher._cache_prices` (`src/utils/getSkins.py:77-91`) at
clock reading `now`: overwrite the file with the price and the current
timestamp. -/
def _cache_prices (price : Int) (now : ℤ) (_state : CacheState) : CacheState :=
  some { price := price, timestamp := now }

/-- `SkinPriceFetcher.refresh_cache` (`src/utils/getSkins.py:112-119`):
delete the cache file (a no-op when absent). -/
def refresh_cache (_state : CacheState) : CacheState :=
  none

end GetSkins

/-! ## Specification-side definitions used to state claims -/

/-- First-success-wins selection as §4.1 of the spec words it: the first
source whose fetch succeeds with a non-empty price list, skipping both
thrown errors and empty results; `none` when every source is exhausted.
Stated from the spec for comparison with `DataSources.get_prices`. -/
def firstNonEmptyResult (fetch : DataSources.SourceKind → Except String (List Int)) :
    List DataSources.SourceKind → Option (List Int) :=
  fun sources => sources.findSome? fun source =>
    match fetch source with
    | .ok prices => if prices.isEmpty then none else some prices
    | .error _ => none

/-- An attempt of the retry loop that failed to produce a non-empty price
list: it either raised, or returned an empty list. -/
def failedAttempt : PlaywrightScraper.AttemptOutcome → Prop
  | .ok prices => prices = []
  | .error _ => True

/-- The backoff sleeps the retry loop performs while running through a
block of failed attempts that is followed by at least one further attempt:
`2 ^ i` for each attempt `i` that raised, nothing for attempts that
returned an empty list.  `i` is the index of the block's first attempt. -/
def errorSleeps (i : Nat) : List PlaywrightScraper.AttemptOutcome → List Nat
  | [] => []
  | .error _ :: rest => 2 ^ i :: errorSleeps (i + 1) rest
  | .ok _ :: rest => errorSleeps (i + 1) rest

/-- Record validity as the spec's data-quality sentence words it:
non-blank name, weapon not `"Unknown"`, positive price.  Stated from the
spec for comparison with `SkinVerifier.validSkin`. -/
def specValidSkin (skin : SkinVerifier.SkinInfo) : Bool :=
  skin.name ≠ "" && skin.weapon ≠ "Unknown" && decide (skin.price > 0)

/-- The single-record analysis input refuting the spec's validity clause:
pipeline-shaped record whose weapon is `"Unknown"`. -/
def unknownWeaponSkin : SkinVerifier.SkinInfo :=
  { name := "Prime Vandal", weapon := "Unknown", price := 1775,
    edition := "Premium", source := "Store", row_index := 0 }

/-- The second table of the spec's three-table extraction scenario (§8):
a header row, a marked row parsing to 1200, a marked row with unparsable
text, and an unmarked row whose text contains `950 VP`. -/
def scenarioTable2 : Table :=
  [ [⟨false, "Name"⟩, ⟨false, "Price"⟩]
  , [⟨false, "Elderflame Vandal"⟩, ⟨true, "1200"⟩]
  , [⟨false, "Mystery"⟩, ⟨true, "abc"⟩]
  , [⟨false, "Sovereign Ghost"⟩, ⟨false, "950 VP"⟩] ]

/-- The `SkinInfo` record produced from a one-cell row whose marked text is
`"1775"` (used to instantiate the price-positivity invariant). -/
def witnessSkin : SkinVerifier.SkinInfo :=
  { name := "1775", weapon := "Unknown", price := 1775,
    edition := "Unknown", source := "Unknown", row_index := 0 }

namespace DataSources

/-- `FandomWikiSource._extract_price_from_row`
(`src/utils/data_sources.py:133-164`), a verbatim duplicate of
`PlaywrightScraper._extract_price_from_row`. -/
def FandomWikiSource_extract_price_from_row : Row → Option Int :=
  PlaywrightScraper._extract_price_from_row

end DataSources

/-! ## Helper lemmas -/

/-- Any price the fallback cell scan yields lies in the sanity range. -/
theorem fallbackScan_mem_range (cells : List Cell) (p : Int)
    (h : PlaywrightScraper.fallbackScan cells = some p) : 800 ≤ p ∧ p ≤ 6000 := by
  induction cells with
  | nil => simp [PlaywrightScraper.fallbackScan] at h
  | cons cell rest ih =>
    unfold PlaywrightScraper.fallbackScan at h
    cases hm : reSearchPrice (pyStrip cell.text.data) with
    | none => rw [hm] at h; exact ih h
    | some m =>
      rw [hm] at h
      dsimp only at h
      cases hp : pyInt (String.mk (removeCommas m)) with
      | none => rw [hp] at h; exact ih h
      | some price =>
        rw [hp] at h
        dsimp only at h
        by_cases hr : 800 ≤ price ∧ price ≤ 6000
        · rw [if_pos hr] at h
          cases h
          exact hr
        · rw [if_neg hr] at h; exact ih h

/-- Unfolding equation of the source-iteration loop. -/
theorem get_prices_cons (fetch : DataSources.SourceKind → Except String (List Int))
    (source : DataSources.SourceKind) (rest : List DataSources.SourceKind) :
    DataSources.get_prices fetch (source :: rest) =
      (match fetch source with
        | .ok prices =>
            if prices.length > 0 then .ok prices else DataSources.get_prices fetch rest
        | .error _ => DataSources.get_prices fetch rest) := rfl

/-- Unfolding equation of the spec-side first-success-wins selection. -/
theorem firstNonEmptyResult_cons (fetch : DataSources.SourceKind → Except String (List Int))
    (source : DataSources.SourceKind) (rest : List DataSources.SourceKind) :
    firstNonEmptyResult fetch (source :: rest) =
      (match fetch source with
        | .ok prices =>
            if prices.isEmpty then firstNonEmptyResult fetch rest else some prices
        | .error _ => firstNonEmptyResult fetch rest) := by
  unfold firstNonEmptyResult
  rw [List.findSome?_cons]
  cases fetch source with
  | error e => rfl
  | ok prices =>
    dsimp only
    cases hp : prices.isEmpty <;> simp [hp]

/-- The source-iteration loop realises first-success-wins selection. -/
theorem get_prices_eq_firstNonEmpty
    (fetch : DataSources.SourceKind → Except String (List Int))
    (sources : List DataSources.SourceKind) :
    DataSources.get_prices fetch sources =
      (match firstNonEmptyResult fetch sources with
        | some prices => .ok prices
        | none => .error "All data sources failed") := by
  induction sources with
  | nil => rfl
  | cons source rest ih =>
    rw [get_prices_cons, firstNonEmptyResult_cons]
    cases hf : fetch source with
    | error e => dsimp only; rw [ih]
    | ok prices =>
      dsimp only
      cases prices with
      | nil => rw [if_neg (by simp), if_pos (by simp)]; exact ih
      | cons a l => rw [if_pos (by simp), if_neg (by simp)]

/-- A successfully returned price list is never empty. -/
theorem get_prices_ok_nonempty
    (fetch : DataSources.SourceKind → Except String (List Int)) :
    ∀ (sources : List DataSources.SourceKind) (prices : List Int),
      DataSources.get_prices fetch sources = .ok prices → prices ≠ [] := by
  intro sources
  induction sources with
  | nil => intro prices h; simp [DataSources.get_prices] at h
  | cons source rest ih =>
    intro prices h
    rw [get_prices_cons] at h
    cases hf : fetch source with
    | error e => rw [hf] at h; dsimp only at h; exact ih prices h
    | ok ps =>
      rw [hf] at h
      dsimp only at h
      by_cases hl : ps.length > 0
      · rw [if_pos hl] at h
        cases h
        intro hnil
        subst hnil
        simp at hl
      · rw [if_neg hl] at h
        exact ih prices h

/-- Unfolding equation of the retry loop on a returning attempt. -/
theorem scrape_go_cons_ok (i : Nat) (qs : List Int)
    (rest : List PlaywrightScraper.AttemptOutcome) :
    PlaywrightScraper.scrape_with_retry_go i (.ok qs :: rest) =
      (if qs.length > 0 then ([], .ok qs)
       else PlaywrightScraper.scrape_with_retry_go (i + 1) rest) := rfl

/-- Unfolding equation of the retry loop on a raising attempt. -/
theorem scrape_go_cons_error (i : Nat) (e : String)
    (rest : List PlaywrightScraper.AttemptOutcome) :
    PlaywrightScraper.scrape_with_retry_go i (.error e :: rest) =
      (if rest.isEmpty then ([], .error e)
       else (2 ^ i :: (PlaywrightScraper.scrape_with_retry_go (i + 1) rest).1,
             (PlaywrightScraper.scrape_with_retry_go (i + 1) rest).2)) := rfl

/-- Through a failed block, the retry loop reaches the first non-empty
success, sleeping only for raising attempts. -/
theorem scrape_go_success (ps : List Int) (hps : ps ≠ []) :
    ∀ (pre : List PlaywrightScraper.AttemptOutcome) (i : Nat)
      (rest : List PlaywrightScraper.AttemptOutcome),
      (∀ o ∈ pre, failedAttempt o) →
      PlaywrightScraper.scrape_with_retry_go i (pre ++ .ok ps :: rest) =
        (errorSleeps i pre, .ok ps) := by
  intro pre
  induction pre with
  | nil =>
    intro i rest _
    rw [List.nil_append, scrape_go_cons_ok,
      if_pos (List.length_pos.mpr hps)]
    rfl
  | cons o pre ih =>
    intro i rest hfail
    have ho := hfail o (List.mem_cons_self o pre)
    have hpre : ∀ x ∈ pre, failedAttempt x := fun x hx => hfail x (List.mem_cons_of_mem o hx)
    cases o with
    | ok qs =>
      have hq : qs = [] := ho
      subst hq
      rw [List.cons_append, scrape_go_cons_ok, if_neg (by simp), ih (i + 1) rest hpre]
      rfl
    | error e =>
      rw [List.cons_append, scrape_go_cons_error, if_neg (by simp), ih (i + 1) rest hpre]
      rfl

/-- A raise on the final attempt is re-raised with no backoff sleep of
its own. -/
theorem scrape_go_allfail_error (e : String) :
    ∀ (pre : List PlaywrightScraper.AttemptOutcome) (i : Nat),
      (∀ o ∈ pre, failedAttempt o) →
      PlaywrightScraper.scrape_with_retry_go i (pre ++ [.error e]) =
        (errorSleeps i pre, .error e) := by
  intro pre
  induction pre with
  | nil =>
    intro i _
    rfl
  | cons o pre ih =>
    intro i hfail
    have ho := hfail o (List.mem_cons_self o pre)
    have hpre : ∀ x ∈ pre, failedAttempt x := fun x hx => hfail x (List.mem_cons_of_mem o hx)
    cases o with
    | ok qs =>
      have hq : qs = [] := ho
      subst hq
      rw [List.cons_append, scrape_go_cons_ok, if_neg (by simp), ih (i + 1) hpre]
      rfl
    | error e2 =>
      rw [List.cons_append, scrape_go_cons_error, if_neg (by simp), ih (i + 1) hpre]
      rfl

/-- An empty result on the final attempt leads to the generic exhaustion
error, not to a re-raise. -/
theorem scrape_go_allfail_empty :
    ∀ (pre : List PlaywrightScraper.AttemptOutcome) (i : Nat),
      (∀ o ∈ pre, failedAttempt o) →
      PlaywrightScraper.scrape_with_retry_go i (pre ++ [.ok []]) =
        (errorSleeps i pre, .error "All scraping attempts failed") := by
  intro pre
  induction pre with
  | nil =>
    intro i _
    rw [List.nil_append, scrape_go_cons_ok, if_neg (by simp)]
    rfl
  | cons o pre ih =>
    intro i hfail
    have ho := hfail o (List.mem_cons_self o pre)
    have hpre : ∀ x ∈ pre, failedAttempt x := fun x hx => hfail x (List.mem_cons_of_mem o hx)
    cases o with
    | ok qs =>
      have hq : qs = [] := ho
      subst hq
      rw [List.cons_append, scrape_go_cons_ok, if_neg (by simp), ih (i + 1) hpre]
      rfl
    | error e2 =>
      rw [List.cons_append, scrape_go_cons_error, if_neg (by simp), ih (i + 1) hpre]
      rfl

/-- Every record `_extract_skin_info` produces carries a positive price. -/
theorem extract_skin_info_price_pos (row : Row) (i t : Nat)
    (info : SkinVerifier.SkinInfo)
    (h : SkinVerifier._extract_skin_info row i t = some info) : 0 < info.price := by
  unfold SkinVerifier._extract_skin_info at h
  cases row with
  | nil => simp at h
  | cons name_cell restCells =>
    dsimp only at h
    cases hp : SkinVerifier._extract_price_from_row (name_cell :: restCells) with
    | none => rw [hp] at h; simp at h
    | some price =>
      rw [hp] at h
      dsimp only at h
      by_cases hle : price ≤ 0
      · rw [if_pos hle] at h; simp at h
      · rw [if_neg hle] at h
        have hpr : info.price = price := by
          injection h with h2
          rw [← h2]
        rw [hpr]
        exact not_le.mp hle

/-- Every record collected by the verifier's table loop carries a
positive price. -/
theorem processRows_price_pos :
    ∀ (rows : List Row) (t i : Nat) (info : SkinVerifier.SkinInfo),
      info ∈ SkinVerifier.processRows t i rows → 0 < info.price := by
  intro rows
  induction rows with
  | nil => intro t i info h; simp [SkinVerifier.processRows] at h
  | cons row rest ih =>
    intro t i info h
    unfold SkinVerifier.processRows at h
    cases hp : SkinVerifier._extract_price_from_row row with
    | none => rw [hp] at h; exact ih t (i + 1) info h
    | some p =>
      rw [hp] at h
      dsimp only at h
      cases hs : SkinVerifier._extract_skin_info row i t with
      | none => rw [hs] at h; exact ih t (i + 1) info h
      | some info2 =>
        rw [hs] at h
        dsimp only at h
        rcases List.mem_cons.mp h with heq | hmem
        · subst heq
          exact extract_skin_info_price_pos row i t info hs
        · exact ih t (i + 1) info hmem

/-- On records with positive prices, the missing-data scan never emits
the invalid-price flag. -/
theorem missingData_no_price_flag (skins : List SkinVerifier.SkinInfo)
    (hpos : ∀ s ∈ skins, 0 < s.price) :
    SkinVerifier.missingDataEntries skins =
      SkinVerifier.missingDataEntriesNoPriceFlag skins := by
  induction skins with
  | nil => rfl
  | cons s rest ih =>
    have hs := hpos s (List.mem_cons_self s rest)
    have hrest : ∀ x ∈ rest, 0 < x.price :=
      fun x hx => hpos x (List.mem_cons_of_mem s hx)
    unfold SkinVerifier.missingDataEntries SkinVerifier.missingDataEntriesNoPriceFlag
    rw [List.flatMap_cons, List.flatMap_cons]
    have htail : SkinVerifier.missingDataEntries rest =
        SkinVerifier.missingDataEntriesNoPriceFlag rest := ih hrest
    unfold SkinVerifier.missingDataEntries SkinVerifier.missingDataEntriesNoPriceFlag at htail
    rw [htail, if_neg (not_le.mpr hs)]
    simp

/-! ## Claim theorems -/

/-- C1 (counterexample): the configured source list never holds the
browser-based source first and the plain-HTTP source second — it is a
singleton for either value of the Playwright-availability flag, and with
Playwright available the plain-HTTP source is absent altogether. -/
theorem C1_counterexample :
    DataSources.DataSourceManager_sources true = [.fandomPlaywright] ∧
    DataSources.DataSourceManager_sources false = [.fandomRequests] ∧
    DataSources.DataSourceManager_sources true ≠ [.fandomPlaywright, .fandomRequests] ∧
    DataSources.SourceKind.fandomRequests ∉ DataSources.DataSourceManager_sources true :=
  ⟨rfl, rfl, by decide, by decide⟩

/-- C1 (amended): the configured source list holds exactly one source —
the browser-based one when Playwright is importable, the plain-HTTP one
otherwise; `get_prices` iterates that list with first-success-wins
discipline (a thrown error or an empty result moves on to the next source,
the first non-empty list is returned unchanged, exhaustion raises); and
`get_total_price` is exactly the integer sum of the returned list. -/
theorem C1_sources_and_first_success :
    (DataSources.DataSourceManager_sources true = [.fandomPlaywright] ∧
     DataSources.DataSourceManager_sources false = [.fandomRequests]) ∧
    (∀ (fetch : DataSources.SourceKind → Except String (List Int))
       (sources : List DataSources.SourceKind),
      DataSources.get_prices fetch sources =
        (match firstNonEmptyResult fetch sources with
          | some prices => .ok prices
          | none => .error "All data sources failed")) ∧
    (∀ (fetch : DataSources.SourceKind → Except String (List Int))
       (sources : List DataSources.SourceKind) (prices : List Int),
      DataSources.get_prices fetch sources = .ok prices →
        prices ≠ [] ∧ DataSources.get_total_price fetch sources = .ok prices.sum) := by
  refine ⟨⟨rfl, rfl⟩, get_prices_eq_firstNonEmpty, ?_⟩
  intro fetch sources prices h
  refine ⟨get_prices_ok_nonempty fetch sources prices h, ?_⟩
  unfold DataSources.get_total_price
  rw [h]

/-- C1 (witness): with the Playwright configuration and a fetch returning
`[1000, 2000]`, the manager's total is 3000. -/
theorem C1_witness :
    ([1000, 2000] : List Int) ≠ [] ∧
    DataSources.get_total_price (fun _ => .ok [1000, 2000])
      (DataSources.DataSourceManager_sources true) = .ok 3000 :=
  (C1_sources_and_first_success.2.2 (fun _ => .ok [1000, 2000])
    (DataSources.DataSourceManager_sources true) [1000, 2000]) rfl

/-- C2: a price produced by the fallback (unmarked-cell) scan lies in
[800, 6000]; a price parsed from the first marked cell is returned with no
range constraint; and the verbatim duplicate of the extractor in
`data_sources.py` agrees with the one in `playwright_scraper.py`. -/
theorem C2_fallback_range :
    (∀ (row : Row) (p : Int), row.find? (fun c => c.marked) = none →
      PlaywrightScraper._extract_price_from_row row = some p → 800 ≤ p ∧ p ≤ 6000) ∧
    (∀ (row : Row) (td : Cell) (n : Int), row.find? (fun c => c.marked) = some td →
      pyInt (pyCleanNumber td.text) = some n →
      PlaywrightScraper._extract_price_from_row row = some n) ∧
    (∀ row : Row, DataSources.FandomWikiSource_extract_price_from_row row =
      PlaywrightScraper._extract_price_from_row row) := by
  refine ⟨?_, ?_, fun _ => rfl⟩
  · intro row p hfind hext
    unfold PlaywrightScraper._extract_price_from_row at hext
    rw [hfind] at hext
    exact fallbackScan_mem_range row p hext
  · intro row td n hfind hparse
    unfold PlaywrightScraper._extract_price_from_row
    rw [hfind]
    exact hparse

/-- C2 (witness): the fallback scan accepts 950 from `"950 VP"`, and the
primary path returns 7000 although it lies outside the sanity range. -/
theorem C2_witness :
    ((800:ℤ) ≤ 950 ∧ (950:ℤ) ≤ 6000) ∧
    PlaywrightScraper._extract_price_from_row [⟨true, "7000"⟩] = some 7000 :=
  ⟨C2_fallback_range.1 [⟨false, "950 VP"⟩] 950 rfl rfl,
   C2_fallback_range.2.1 [⟨true, "7000"⟩] ⟨true, "7000"⟩ 7000 rfl rfl⟩

/-- C3 (counterexample): on a single pipeline-shaped record whose weapon
is `"Unknown"`, the code's data-quality score is 100, while the claimed
formula (weapon must differ from `"Unknown"`) yields 0. -/
theorem C3_counterexample :
    (SkinVerifier._analyze_data_quality [unknownWeaponSkin]).data_quality_score = 100 ∧
    ((List.countP (fun skin => specValidSkin skin) [unknownWeaponSkin] : ℚ) /
        ([unknownWeaponSkin] : List SkinVerifier.SkinInfo).length * 100) = 0 ∧
    (100 : ℚ) ≠ 0 := by
  refine ⟨?_, ?_, by norm_num⟩
  · show ((1 : ℕ) : ℚ) / ((1 : ℕ) : ℚ) * 100 = 100
    norm_num
  · show ((0 : ℕ) : ℚ) / ((1 : ℕ) : ℚ) * 100 = 0
    norm_num

/-- C3 (amended): for a non-empty record list the data-quality score is
(number of records with non-empty name, non-empty weapon string and
positive price) / total * 100 — a weapon equal to `"Unknown"` still counts
as valid, since the code only tests the string's truthiness. -/
theorem C3_score_formula (skins : List SkinVerifier.SkinInfo) (h : skins ≠ []) :
    (SkinVerifier._analyze_data_quality skins).data_quality_score =
      ((skins.filter (fun skin =>
          skin.name ≠ "" && skin.weapon ≠ "" && decide (skin.price > 0))).length : ℚ) /
        skins.length * 100 := by
  have hlen : skins.length > 0 := List.length_pos.mpr h
  show (if skins.length > 0 then
      ((skins.countP fun skin => SkinVerifier.validSkin skin : ℕ) : ℚ) / skins.length * 100
    else 0) = _
  rw [if_pos hlen,
    show (fun skin => SkinVerifier.validSkin skin) =
      (fun skin : SkinVerifier.SkinInfo =>
        skin.name ≠ "" && skin.weapon ≠ "" && decide (skin.price > 0)) from rfl,
    List.countP_eq_length_filter]

/-- C3 (witness): the amended formula instantiated on the one-record
list. -/
theorem C3_witness :
    (SkinVerifier._analyze_data_quality [unknownWeaponSkin]).data_quality_score =
      (([unknownWeaponSkin].filter (fun skin =>
          skin.name ≠ "" && skin.weapon ≠ "" && decide (skin.price > 0))).length : ℚ) /
        ([unknownWeaponSkin] : List SkinVerifier.SkinInfo).length * 100 :=
  C3_score_formula [unknownWeaponSkin] (by decide)

/-- C4: a price cached at time `t0` is read back identically at any `t1`
with `t1 - t0` below the 6-hour TTL; it is a miss once the TTL has
elapsed; and any read after `refresh_cache` is a miss. -/
theorem C4_cache_roundtrip (price : Int) (t0 t1 : ℤ) (st st2 : GetSkins.CacheState) :
    (t1 - t0 < GetSkins.CACHE_DURATION →
      GetSkins._get_cached_prices t1 (GetSkins._cache_prices price t0 st) = some price) ∧
    (GetSkins.CACHE_DURATION ≤ t1 - t0 →
      GetSkins._get_cached_prices t1 (GetSkins._cache_prices price t0 st) = none) ∧
    GetSkins._get_cached_prices t1 (GetSkins.refresh_cache st2) = none := by
  refine ⟨?_, ?_, rfl⟩
  · intro h
    show (if t1 - t0 < GetSkins.CACHE_DURATION then some price else none) = some price
    rw [if_pos h]
  · intro h
    show (if t1 - t0 < GetSkins.CACHE_DURATION then some price else none) = none
    rw [if_neg (not_lt.mpr h)]

/-- C4 (witness): cache 4700 at time 0 — reading at time 1 hits, reading
at the 21600-second TTL boundary misses, reading after a refresh misses. -/
theorem C4_witness :
    GetSkins._get_cached_prices 1 (GetSkins._cache_prices 4700 0 none) = some 4700 ∧
    GetSkins._get_cached_prices 21600 (GetSkins._cache_prices 4700 0 none) = none ∧
    GetSkins._get_cached_prices 1 (GetSkins.refresh_cache (some ⟨4700, 0⟩)) = none :=
  ⟨(C4_cache_roundtrip 4700 0 1 none none).1 (by decide),
   (C4_cache_roundtrip 4700 0 21600 none none).2.1 (by decide),
   (C4_cache_roundtrip 4700 0 1 none (some ⟨4700, 0⟩)).2.2⟩

/-- C5: on markup with three classifier-matching tables whose second table
holds (after the header) a marked row parsing to 1200, a marked row with
unparsable text and an unmarked row containing `950 VP` — and whose third
table has no data rows — extraction returns exactly `[1200, 950]`: the
unparsable marked row is skipped without error and 950 is accepted by the
fallback scan because it lies in [800, 6000]. -/
theorem C5_extraction_scenario (t1 : Table) (hdr3 : Row) :
    PlaywrightScraper._extract_prices_from_soup [t1, scenarioTable2, [hdr3]] =
      .ok [1200, 950] := rfl

/-- C6: a currency key absent from the catalog, a currency code absent
from the rate map, and a rate-fetch failure all yield an `"Error: ..."`
string from `convert_vp_to_currency` instead of an exception. -/
theorem C6_error_tagged :
    (∀ (rates : Except String (List (String × ℚ))) (vp : Int) (key : String),
      CurrencyMap.CURRENCY_MAP.lookup key = none →
      ∃ msg, CurrencyMap.convert_vp_to_currency rates vp key = "Error: " ++ msg) ∧
    (∀ (rates : List (String × ℚ)) (vp : Int) (key sym : String) (base : ℚ),
      CurrencyMap.CURRENCY_MAP.lookup key = some (sym, base) →
      CurrencyMap._get_currency_code key ≠ "USD" →
      rates.lookup (CurrencyMap._get_currency_code key) = none →
      ∃ msg, CurrencyMap.convert_vp_to_currency (.ok rates) vp key = "Error: " ++ msg) ∧
    (∀ (e : String) (vp : Int) (key sym : String) (base : ℚ),
      CurrencyMap.CURRENCY_MAP.lookup key = some (sym, base) →
      CurrencyMap._get_currency_code key ≠ "USD" →
      CurrencyMap.convert_vp_to_currency (.error e) vp key = "Error: " ++ e) := by
  refine ⟨?_, ?_, ?_⟩
  · intro rates vp key h
    unfold CurrencyMap.convert_vp_to_currency
    rw [h]
    exact ⟨_, rfl⟩
  · intro rates vp key sym base hkey hcode hrate
    unfold CurrencyMap.convert_vp_to_currency
    rw [hkey]
    dsimp only
    rw [if_neg hcode, hrate]
    exact ⟨_, rfl⟩
  · intro e vp key sym base hkey hcode
    unfold CurrencyMap.convert_vp_to_currency
    rw [hkey]
    dsimp only
    rw [if_neg hcode]

/-- C6 (witness): an unknown key, a missing EUR rate and a failed rate
fetch each produce an error-tagged string. -/
theorem C6_witness :
    (∃ msg, CurrencyMap.convert_vp_to_currency (.ok CurrencyMap._get_fallback_rates)
        11000 "Dogecoin (D)" = "Error: " ++ msg) ∧
    (∃ msg, CurrencyMap.convert_vp_to_currency (.ok [])
        11000 "Euro (€)" = "Error: " ++ msg) ∧
    CurrencyMap.convert_vp_to_currency (.error "All exchange rate sources failed")
        11000 "Euro (€)" = "Error: " ++ "All exchange rate sources failed" :=
  ⟨C6_error_tagged.1 (.ok CurrencyMap._get_fallback_rates) 11000 "Dogecoin (D)" rfl,
   C6_error_tagged.2.1 [] 11000 "Euro (€)" "€" 100 rfl (by decide) rfl,
   C6_error_tagged.2.2 "All exchange rate sources failed" 11000 "Euro (€)" "€" 100 rfl
     (by decide)⟩

/-- C7: 11000 VP times the fixed 1/110 anchor is exactly 100 USD, the USD
path applies no exchange rate, and after `.2f` formatting and stripping
trailing zeros and the trailing decimal point the converter returns the
string `"$100"`. -/
theorem C7_usd_anchor :
    ((11000 : ℤ) : ℚ) * CurrencyMap.VP_TO_USD_RATE = 100 ∧
    CurrencyMap.convert_vp_to_currency (.ok CurrencyMap._get_fallback_rates) 11000
      "United States Dollar ($)" = "$100" := by
  have husd : ((11000 : ℤ) : ℚ) * CurrencyMap.VP_TO_USD_RATE = 100 := by
    unfold CurrencyMap.VP_TO_USD_RATE
    norm_num
  refine ⟨husd, ?_⟩
  have hfmt : CurrencyMap.commaFormat2 100 = "100.00" := by
    unfold CurrencyMap.commaFormat2
    rw [show round ((100 : ℚ) * 100) = (10000 : ℤ) by rw [round_eq]; norm_num]
    rfl
  calc CurrencyMap.convert_vp_to_currency (.ok CurrencyMap._get_fallback_rates) 11000
        "United States Dollar ($)"
      = CurrencyMap.rstripChar '.' (CurrencyMap.rstripChar '0'
          ("$" ++ CurrencyMap.commaFormat2 (((11000 : ℤ) : ℚ) * CurrencyMap.VP_TO_USD_RATE))) :=
        rfl
    _ = CurrencyMap.rstripChar '.' (CurrencyMap.rstripChar '0'
          ("$" ++ CurrencyMap.commaFormat2 100)) := by rw [husd]
    _ = "$100" := by rw [hfmt]; rfl

/-- C8 (counterexample): an attempt that fails by returning an empty list
is not followed by any backoff sleep — the run over `[ok [], ok [1000]]`
records no sleep at all, refuting "every failed attempt is followed by a
sleep of 2^attempt". -/
theorem C8_counterexample :
    PlaywrightScraper.scrape_with_retry [.ok [], .ok [1000]] = ([], .ok [1000]) ∧
    ([] : List Nat) ≠ [2 ^ 0] := ⟨rfl, by decide⟩

/-- C8 (amended): the retry wrapper returns the first attempt's non-empty
list; an attempt that raises sleeps `2^attempt` before the next try except
when it is the final attempt, whose error propagates with no sleep; an
attempt returning an empty list moves on with no sleep; and when every
attempt failed with the final one returning an empty list, a generic
exhaustion error (not the last raised error) is raised. -/
theorem C8_retry_behaviour :
    (∀ (pre rest : List PlaywrightScraper.AttemptOutcome) (ps : List Int),
      (∀ o ∈ pre, failedAttempt o) → ps ≠ [] →
      PlaywrightScraper.scrape_with_retry (pre ++ .ok ps :: rest) =
        (errorSleeps 0 pre, .ok ps)) ∧
    (∀ (pre : List PlaywrightScraper.AttemptOutcome) (e : String),
      (∀ o ∈ pre, failedAttempt o) →
      PlaywrightScraper.scrape_with_retry (pre ++ [.error e]) =
        (errorSleeps 0 pre, .error e)) ∧
    (∀ (pre : List PlaywrightScraper.AttemptOutcome),
      (∀ o ∈ pre, failedAttempt o) →
      PlaywrightScraper.scrape_with_retry (pre ++ [.ok []]) =
        (errorSleeps 0 pre, .error "All scraping attempts failed")) :=
  ⟨fun pre rest ps hfail hps => scrape_go_success ps hps pre 0 rest hfail,
   fun pre e hfail => scrape_go_allfail_error e pre 0 hfail,
   fun pre hfail => scrape_go_allfail_empty pre 0 hfail⟩

/-- C8 (witness): a raising first attempt sleeps `2^0 = 1`, an empty second
attempt sleeps nothing, and the third attempt's non-empty list is
returned. -/
theorem C8_witness :
    PlaywrightScraper.scrape_with_retry [.error "timeout", .ok [], .ok [1500]] =
      ([1], .ok [1500]) :=
  C8_retry_behaviour.1 [.error "timeout", .ok []] [] [1500]
    (by
      intro o ho
      simp only [List.mem_cons, List.not_mem_nil, or_false] at ho
      rcases ho with rfl | rfl
      · trivial
      · rfl)
    (by decide)

/-- C9: for a positive actual count the report's coverage equals
actual / 496 * 100; the wording is bucketed into exactly the four tiers
(≥95 excellent, ≥80 good, ≥60 acceptable, else poor); and for
actual = 480 the coverage lies strictly between 96.7 and 96.9 (≈ 96.8)
and is labelled "excellent". -/
theorem C9_coverage_tiers :
    (∀ actual : Nat, 0 < actual →
      SkinVerifier.coverage actual = (actual : ℚ) / 496 * 100) ∧
    (∀ c : ℚ,
      (95 ≤ c → SkinVerifier.coverageLabel c = "excellent") ∧
      (80 ≤ c → c < 95 → SkinVerifier.coverageLabel c = "good") ∧
      (60 ≤ c → c < 80 → SkinVerifier.coverageLabel c = "acceptable") ∧
      (c < 60 → SkinVerifier.coverageLabel c = "poor")) ∧
    ((967 : ℚ) / 10 < SkinVerifier.coverage 480 ∧
      SkinVerifier.coverage 480 < (969 : ℚ) / 10) ∧
    SkinVerifier.coverageLabel (SkinVerifier.coverage 480) = "excellent" := by
  have hcov : ∀ actual : Nat, 0 < actual →
      SkinVerifier.coverage actual = (actual : ℚ) / 496 * 100 := by
    intro actual ha
    unfold SkinVerifier.coverage SkinVerifier.expected_total
    rw [if_pos ha]
    norm_num
  have hlabel : ∀ c : ℚ,
      (95 ≤ c → SkinVerifier.coverageLabel c = "excellent") ∧
      (80 ≤ c → c < 95 → SkinVerifier.coverageLabel c = "good") ∧
      (60 ≤ c → c < 80 → SkinVerifier.coverageLabel c = "acceptable") ∧
      (c < 60 → SkinVerifier.coverageLabel c = "poor") := by
    intro c
    unfold SkinVerifier.coverageLabel
    refine ⟨fun h1 => ?_, fun h1 h2 => ?_, fun h1 h2 => ?_, fun h1 => ?_⟩
    · rw [if_pos h1]
    · rw [if_neg (not_le.mpr h2), if_pos h1]
    · rw [if_neg (not_le.mpr (h2.trans_le (by norm_num))),
        if_neg (not_le.mpr h2), if_pos h1]
    · rw [if_neg (not_le.mpr (h1.trans_le (by norm_num))),
        if_neg (not_le.mpr (h1.trans_le (by norm_num))),
        if_neg (not_le.mpr h1)]
  have h480 : SkinVerifier.coverage 480 = 3000 / 31 := by
    rw [hcov 480 (by norm_num)]
    norm_num
  refine ⟨hcov, hlabel, ⟨?_, ?_⟩, ?_⟩
  · rw [h480]; norm_num
  · rw [h480]; norm_num
  · rw [h480]
    exact (hlabel (3000 / 31)).1 (by norm_num)

/-- C9 (witness): the formula at 480 and the excellent tier at 100. -/
theorem C9_witness :
    SkinVerifier.coverage 480 = ((480 : ℕ) : ℚ) / 496 * 100 ∧
    SkinVerifier.coverageLabel 100 = "excellent" :=
  ⟨C9_coverage_tiers.1 480 (by norm_num), (C9_coverage_tiers.2.1 100).1 (by norm_num)⟩

/-- C10: every record `_extract_skin_info` returns has a strictly positive
price; hence every record the verifier's per-table loop collects does too,
and on such records the missing-data scan coincides with the variant that
never emits the invalid-price flag — the flag is unreachable for
pipeline-produced records. -/
theorem C10_price_invariant :
    (∀ (row : Row) (i t : Nat) (info : SkinVerifier.SkinInfo),
      SkinVerifier._extract_skin_info row i t = some info → 0 < info.price) ∧
    (∀ (table : Table) (t : Nat) (info : SkinVerifier.SkinInfo),
      info ∈ SkinVerifier._process_skins_table_details table t → 0 < info.price) ∧
    (∀ skins : List SkinVerifier.SkinInfo, (∀ s ∈ skins, 0 < s.price) →
      SkinVerifier.missingDataEntries skins =
        SkinVerifier.missingDataEntriesNoPriceFlag skins) ∧
    (∀ (table : Table) (t : Nat),
      SkinVerifier.missingDataEntries (SkinVerifier._process_skins_table_details table t) =
        SkinVerifier.missingDataEntriesNoPriceFlag
          (SkinVerifier._process_skins_table_details table t)) :=
  ⟨extract_skin_info_price_pos,
   fun table t info h => processRows_price_pos (table.drop 1) t 0 info h,
   missingData_no_price_flag,
   fun table t => missingData_no_price_flag _
     (fun s hs => processRows_price_pos (table.drop 1) t 0 s hs)⟩

/-- C10 (witness): the invariant instantiated on a concrete marked row and
a concrete record list. -/
theorem C10_witness :
    (0 : ℤ) < 1775 ∧
    SkinVerifier.missingDataEntries [witnessSkin] =
      SkinVerifier.missingDataEntriesNoPriceFlag [witnessSkin] :=
  ⟨C10_price_invariant.1 [⟨true, "1775"⟩] 0 0 witnessSkin rfl,
   C10_price_invariant.2.2.1 [witnessSkin] (by
     intro s hs
     simp only [List.mem_singleton] at hs
     subst hs
     decide)⟩
